import Mathlib

/-! Verification of auth/auth-router.js.

A shallow embedding of the two request handlers of `auth/auth-router.js`
(`POST /register`, `POST /login`) and of the token helper `genToken`.

The handlers are glue around three collaborators that live outside the file:

* `bcryptjs` (`hashSync`, `compareSync`): the argument type guard of both
  functions is embedded as the library has it; salt generation, the digest
  computation and the comparison behind the guard (which may itself throw on a
  stored string that is not a well-formed digest) are fields of `Bcrypt`.
* `jsonwebtoken` (`sign`): the guards on the secret and on the payload, the
  `iat` / `exp` bookkeeping and the `ms` time-span reader are embedded; base64url,
  JSON printing and HMAC are fields of `JwsLib`.
* `../users/users-model.js` (`add`, `findBy(..).first()`) and
  `../config/secrets.js` (`jwtSecret`): taken as parameters (`UsersModel`, `Env`).

A promise is embedded by how it settles: `Except.ok v` for "resolved with `v`",
`Except.error e` for "rejected with `e`".  A handler run is embedded by the
effects it leaves behind (`Outcome`).
-/

namespace AuthRouter

/-! ## Values -/

/-- JSON data: what the body parser and the storage layer produce. Numbers are
kept to the integers. -/
inductive Json where
  | null
  | bool (b : Bool)
  | num (n : Int)
  | str (s : String)
  | arr (items : List Json)
  | obj (fields : List (String × Json))
  deriving Repr, Inhabited

/-- Run-time values the handlers touch: `undefined`, JSON data, or an `Error`
object carrying a message. -/
inductive JVal where
  | undefined
  | json (j : Json)
  | error (message : String)
  deriving Repr, Inhabited

/-- The fields of an object whose members are JSON data (a request body, a stored
record). The first entry of a key is the one that counts. -/
abbrev Obj := List (String × Json)

/-- The fields of an object literal built at run time, whose members may be
`undefined` (the `findBy` filter, the token payload). -/
abbrev Lit := List (String × JVal)

/-- JavaScript `typeof`. -/
def typeOf : JVal → String
  | .undefined => "undefined"
  | .json (.bool _) => "boolean"
  | .json (.num _) => "number"
  | .json (.str _) => "string"
  | .json .null => "object"
  | .json (.arr _) => "object"
  | .json (.obj _) => "object"
  | .error _ => "object"

/-- JavaScript truthiness, as used by `user && ...`, `payload.iat || ...` and
`!secretOrPrivateKey`. -/
def truthy : JVal → Bool
  | .undefined => false
  | .json .null => false
  | .json (.bool b) => b
  | .json (.num n) => n != 0
  | .json (.str s) => s != ""
  | .json (.arr _) => true
  | .json (.obj _) => true
  | .error _ => true

mutual
/-- JavaScript string conversion of JSON data, as performed by a template
literal. -/
def Json.toStr : Json → String
  | .null => "null"
  | .bool b => if b then "true" else "false"
  | .num n => toString n
  | .str s => s
  | .arr items => Json.joinItems items
  | .obj _ => "[object Object]"
/-- The body of `Array.prototype.join(",")`: a `null` item prints as nothing. -/
def Json.joinItems : List Json → String
  | [] => ""
  | x :: rest =>
    (match x with
      | .null => ""
      | j => Json.toStr j)
    ++ (match rest with
      | [] => ""
      | _ => ",")
    ++ Json.joinItems rest
end

/-- JavaScript string conversion of a run-time value. -/
def JVal.toStr : JVal → String
  | .undefined => "undefined"
  | .json j => j.toStr
  | .error message => "Error: " ++ message

/-- Reads field `k` of an object with JSON members: `undefined` when absent. -/
def Obj.get (o : Obj) (k : String) : JVal :=
  match o.lookup k with
  | some j => .json j
  | none => .undefined

/-- Assignment `o[k] = v` on an object with JSON members: an existing key keeps its
place and takes the new value, a new key is appended. -/
def Obj.set : Obj → String → Json → Obj
  | [], k, v => [(k, v)]
  | (k', v') :: rest, k, v =>
    if k' = k then (k, v) :: rest else (k', v') :: Obj.set rest k v

/-- Reads field `k` of an object literal: `undefined` when absent. -/
def Lit.get (o : Lit) (k : String) : JVal :=
  match o.lookup k with
  | some v => v
  | none => .undefined

/-- Assignment `o[k] = v` on an object literal. -/
def Lit.set : Lit → String → JVal → Lit
  | [], k, v => [(k, v)]
  | (k', v') :: rest, k, v =>
    if k' = k then (k, v) :: rest else (k', v') :: Lit.set rest k v

/-- Property read `v.k` for the property names this module reads (`username`,
`password`): a `TypeError` on `undefined` and `null`, the field of an object,
`undefined` on every other value. -/
def getProp (v : JVal) (k : String) : Except JVal JVal :=
  match v with
  | .undefined => .error (.error ("Cannot read property " ++ k ++ " of undefined"))
  | .json .null => .error (.error ("Cannot read property " ++ k ++ " of null"))
  | .json (.obj fields) => .ok (Obj.get fields k)
  | _ => .ok .undefined

/-- What `JSON.stringify` keeps of one member of an object literal: an
`undefined` member is dropped, an `Error` object prints as the empty object. -/
def jsonMember : String × JVal → Option (String × Json)
  | (_, .undefined) => none
  | (k, .json j) => some (k, j)
  | (k, .error _) => some (k, .obj [])

/-- The JSON data that `JSON.stringify` followed by `JSON.parse` makes of an
object literal. -/
def jsonify (o : Lit) : Obj := o.filterMap jsonMember

/-! ## bcryptjs -/

/-- The computations of `bcryptjs` behind its argument guards. -/
structure Bcrypt where
  /-- Models `genSaltSync(rounds)`: the salt drawn for a cost factor. -/
  genSaltSync : Nat → String
  /-- Models `_hash(s, salt)` on a salt drawn by `genSaltSync`: the salted digest. -/
  hash : String → String → String
  /-- Models the body of `compareSync(s, hash)` behind its type guard, on two strings:
  `false` for a stored string that is not 60 long, otherwise the guess is hashed
  again under the salt cut from the stored string and the result compared with it.
  Hashing under a salt cut from a string that is not a well-formed digest throws
  (`Invalid salt version` and the like), hence the `Except`. -/
  check : String → String → Except JVal Bool

/-- Models `bcrypt.hashSync(s, rounds)` with a numeric second argument: draw a
salt for the cost factor, reject a non-string `s`, hash. -/
def hashSync (bcrypt : Bcrypt) (s : JVal) (rounds : Nat) : Except JVal String :=
  let salt := bcrypt.genSaltSync rounds
  match s with
  | .json (.str str) => .ok (bcrypt.hash str salt)
  | _ => .error (.error ("Illegal arguments: " ++ typeOf s ++ ", string"))

/-- Models `bcrypt.compareSync(s, hash)`: reject any argument that is not a
string, otherwise check the guess against the stored string. -/
def compareSync (bcrypt : Bcrypt) (s hash : JVal) : Except JVal Bool :=
  match s, hash with
  | .json (.str guess), .json (.str digest) => bcrypt.check guess digest
  | _, _ => .error (.error ("Illegal arguments: " ++ typeOf s ++ ", " ++ typeOf hash))

/-! ## jsonwebtoken -/

/-- The encoders `jsonwebtoken` signs with. -/
structure JwsLib where
  /-- Models base64url encoding. -/
  base64url : String → String
  /-- Models `JSON.stringify` on JSON data. -/
  stringify : Json → String
  /-- Models the HMAC-SHA256 signature of a signing input under a key, base64url encoded. -/
  hmacSha256 : String → String → String

/-- A signed token, kept in its three parts. -/
structure Jwt where
  header : Json
  payload : Json
  signature : String
  deriving Repr

/-- The signing input of a token: encoded header, a dot, encoded payload. -/
def signingInput (lib : JwsLib) (header payload : Json) : String :=
  lib.base64url (lib.stringify header) ++ "." ++ lib.base64url (lib.stringify payload)

/-- The compact serialisation of a token: the string `jwt.sign` returns. -/
def Jwt.compact (lib : JwsLib) (t : Jwt) : String :=
  signingInput lib t.header t.payload ++ "." ++ t.signature

/-- Models `jwt.decode(token)`: the payload of the token. -/
def Jwt.decode (t : Jwt) : Json := t.payload

/-- The value of a run of decimal digits, `none` when a character is not a digit. -/
def digitsValue (cs : List Char) : Option Nat :=
  cs.foldl
    (fun acc c =>
      match acc with
      | some n => if c.isDigit then some (n * 10 + (c.toNat - 48)) else none
      | none => none)
    (some 0)

/-- The unit table of the `ms` package, in milliseconds. -/
def msUnit (unit : String) : Option Nat :=
  if unit ∈ ["years", "year", "yrs", "yr", "y"] then some 31557600000
  else if unit ∈ ["weeks", "week", "w"] then some 604800000
  else if unit ∈ ["days", "day", "d"] then some 86400000
  else if unit ∈ ["hours", "hour", "hrs", "hr", "h"] then some 3600000
  else if unit ∈ ["minutes", "minute", "mins", "min", "m"] then some 60000
  else if unit ∈ ["seconds", "second", "secs", "sec", "s"] then some 1000
  else if unit ∈ ["milliseconds", "millisecond", "msecs", "msec", "ms", ""] then some 1
  else none

/-- Models `ms(str)` on a string of at most 100 characters made of a whole number,
blanks and a unit (the unit defaults to milliseconds): the span in milliseconds,
`none` for `undefined`. Fractions and signs are outside this reader. -/
def ms (str : String) : Option Nat :=
  let cs := str.data
  let digits := cs.takeWhile Char.isDigit
  let unit := ((cs.dropWhile Char.isDigit).dropWhile (fun c => c = ' ')).map Char.toLower
  if str.length > 100 then none
  else if digits = [] then none
  else
    match digitsValue digits, msUnit (String.mk unit) with
    | some n, some k => some (n * k)
    | _, _ => none

/-- Models `timespan(time, iat)` of `jsonwebtoken` for a string `time`:
`Math.floor(iat + ms(time) / 1000)`, `none` for `undefined`. -/
def timespan (time : String) (iat : Int) : Option Int :=
  match ms time with
  | some milliseconds => some (iat + (milliseconds / 1000 : Nat))
  | none => none

/-- The options object handed to `jwt.sign`. -/
structure SignOptions where
  expiresIn : Option String
  deriving Repr

/-- The check `jsonwebtoken` makes of a registered claim in the payload: when
present it must be a number. -/
def claimIsNumber (payload : Lit) (k : String) : Bool :=
  match payload.lookup k with
  | none => true
  | some (.json (.num _)) => true
  | some _ => false

/-- Models `jwt.sign(payload, secret, options)` for an object payload and the
default algorithm, at clock reading `now` (`Date.now()`, milliseconds). -/
def jwtSign (lib : JwsLib) (payload : Lit) (secret : String) (options : SignOptions)
    (now : Nat) : Except JVal Jwt :=
  let header : Json := .obj [("alg", .str "HS256"), ("typ", .str "JWT")]
  if secret = "" then .error (.error "secretOrPrivateKey must have a value")
  else if !claimIsNumber payload "iat" then
    .error (.error "\"iat\" should be a number of seconds")
  else if !claimIsNumber payload "exp" then
    .error (.error "\"exp\" should be a number of seconds")
  else if !claimIsNumber payload "nbf" then
    .error (.error "\"nbf\" should be a number of seconds")
  else if options.expiresIn.isSome && typeOf (Lit.get payload "exp") != "undefined" then
    .error (.error "Bad \"options.expiresIn\" option the payload already has an \"exp\" property.")
  else
    let timestamp : Int :=
      match Lit.get payload "iat" with
      | .json (.num n) => if n != 0 then n else (now / 1000 : Nat)
      | _ => (now / 1000 : Nat)
    let stamped := Lit.set payload "iat" (.json (.num timestamp))
    let finish (claims : Lit) : Jwt :=
      let body : Json := .obj (jsonify claims)
      { header := header, payload := body,
        signature := lib.hmacSha256 secret (signingInput lib header body) }
    match options.expiresIn with
    | none => .ok (finish stamped)
    | some time =>
      match timespan time timestamp with
      | none =>
        .error (.error
          "\"expiresIn\" should be a number of seconds or string representing a timespan eg: \"1d\", \"20h\", 60")
      | some exp => .ok (finish (Lit.set stamped "exp" (.json (.num exp))))

/-! ## Collaborators and effects -/

/-- Models `../users/users-model.js`: each call is given by how its promise
settles. -/
structure UsersModel where
  /-- Models `Users.add(user)`: resolves with the saved record or rejects. -/
  add : Json → Except JVal JVal
  /-- Models `Users.findBy(filter).first()`: resolves with the first matching record
  (`undefined` when there is none) or rejects. -/
  findByFirst : Lit → Except JVal JVal

/-- Everything the module reads from outside. -/
structure Env where
  bcrypt : Bcrypt
  jws : JwsLib
  /-- Models `secrets.jwtSecret` of `../config/secrets.js`. -/
  jwtSecret : String
  Users : UsersModel
  /-- Models the reading of `Date.now()` when a token is signed, in milliseconds. -/
  now : Nat

/-- One `res.status(status).json(body)`. -/
structure Response where
  status : Nat
  body : JVal
  deriving Repr

/-- The effects of one handler run, in order of occurrence within each kind. -/
structure Outcome where
  /-- The records handed to `Users.add`. -/
  added : List Json
  /-- The argument lists of the `console.log` calls. -/
  logged : List (List JVal)
  /-- The responses sent. -/
  sent : List Response
  /-- Models an exception that leaves the handler uncaught. -/
  thrown : Option JVal
  deriving Repr

/-! ## The module -/

/-- The `payload` object literal that `genToken(user)` builds; reading
`user.username` throws when `user` is `undefined` or `null`. -/
def genTokenPayload (user : JVal) : Except JVal Lit := do
  let username ← getProp user "username"
  pure [("subject", .json (.str "user")), ("username", username)]

/-- The `options` object literal of `genToken`. -/
def genTokenOptions : SignOptions := { expiresIn := some "1h" }

/-- Models `genToken(user)`. -/
def genToken (env : Env) (user : JVal) : Except JVal Jwt := do
  let payload ← genTokenPayload user
  let secret := env.jwtSecret
  let options := genTokenOptions
  jwtSign env.jws payload secret options env.now

/-- The 401 response of the login handler. -/
def invalidCredentials : Response :=
  { status := 401, body := .json (.obj [("message", .str "Invalid Credentials")]) }

/-- The callback `user => ...` passed to `.then` in the login handler: the
`console.log` calls made and the response sent, or the exception thrown. -/
def loginThen (env : Env) (password user : JVal) : Except JVal (List (List JVal) × Response) :=
  if truthy user then do
    let digest ← getProp user "password"
    let matched ← compareSync env.bcrypt password digest
    if matched then
      let jwt ← genToken env user
      let token := Json.str (jwt.compact env.jws)
      let username ← getProp user "username"
      pure ([[.json (.str "token : "), .json token]],
        { status := 200,
          body := .json (.obj [("message", .str ("Welcome " ++ username.toStr ++ "!")),
                               ("token", token)]) })
    else
      pure ([], invalidCredentials)
  else
    pure ([], invalidCredentials)

/-- Models `router.post("/login", ...)` on a request whose body is the object `body`. -/
def login (env : Env) (body : Obj) : Outcome :=
  let username := Obj.get body "username"
  let password := Obj.get body "password"
  match env.Users.findByFirst [("username", username)] with
  | .ok user =>
    match loginThen env password user with
    | .ok (logs, response) => { added := [], logged := logs, sent := [response], thrown := none }
    | .error error =>
      { added := [], logged := [], sent := [{ status := 500, body := error }], thrown := none }
  | .error error =>
    { added := [], logged := [], sent := [{ status := 500, body := error }], thrown := none }

/-- Models `router.post("/register", ...)` on a request whose body is the object `body`. -/
def register (env : Env) (body : Obj) : Outcome :=
  let user := body
  match hashSync env.bcrypt (Obj.get user "password") 10 with
  | .error thrown => { added := [], logged := [], sent := [], thrown := some thrown }
  | .ok hash =>
    let user := Obj.set user "password" (.str hash)
    match env.Users.add (.obj user) with
    | .ok saved =>
      { added := [.obj user], logged := [], sent := [{ status := 201, body := saved }],
        thrown := none }
    | .error error =>
      { added := [.obj user], logged := [], sent := [{ status := 500, body := error }],
        thrown := none }

/-! ## A small deployment

One concrete choice of the collaborators, on which the statements below are
exercised: a store holding the single user `alice`, whose digest is the salted
hash of `"secret"`. -/

/-- A stand-in for `bcryptjs`: the digest is the salt followed by the password, and
a stored string that does not open with the salt marker `s` is refused as
malformed. -/
def demoBcrypt : Bcrypt :=
  { genSaltSync := fun _ => "salt$",
    hash := fun s salt => salt ++ s,
    check := fun guess digest =>
      match digest.data with
      | 's' :: _ => .ok (digest == "salt$" ++ guess)
      | _ => .error (.error "Invalid salt version") }

/-- A stand-in for the encoders of `jsonwebtoken`. -/
def demoJws : JwsLib :=
  { base64url := fun s => s,
    stringify := fun _ => "json",
    hmacSha256 := fun key _ => key }

/-- The stored record of `alice`. -/
def aliceRecord : Obj :=
  [("id", .num 1), ("username", .str "alice"), ("password", .str "salt$secret")]

/-- A store holding `aliceRecord` only. Adding echoes the record back, except that
the name `taken` is refused; a lookup for the name `down` fails. -/
def demoUsers : UsersModel :=
  { add := fun user =>
      match user with
      | .obj fields =>
        match fields.lookup "username" with
        | some (.str "taken") => .error (.error "UNIQUE constraint failed: users.username")
        | _ => .ok (.json user)
      | _ => .ok (.json user),
    findByFirst := fun filter =>
      match Lit.get filter "username" with
      | .json (.str "alice") => .ok (.json (.obj aliceRecord))
      | .json (.str "down") => .error (.error "SQLITE_CANTOPEN")
      | _ => .ok .undefined }

/-- The deployment: the stand-ins above, a signing secret and a clock reading. -/
def demoEnv : Env :=
  { bcrypt := demoBcrypt, jws := demoJws, jwtSecret := "keep it secret", Users := demoUsers,
    now := 1700000000123 }

/-! ## Facts about objects -/

theorem Obj.get_set_same (o : Obj) (k : String) (v : Json) :
    Obj.get (Obj.set o k v) k = .json v := by
  induction o with
  | nil => simp [Obj.set, Obj.get, List.lookup]
  | cons kv rest ih =>
    obtain ⟨k', v'⟩ := kv
    by_cases h : k' = k
    · simp [Obj.set, h, Obj.get, List.lookup]
    · have hne : (k == k') = false := by simpa using fun e => h e.symm
      simp only [Obj.set, h, if_false]
      simp only [Obj.get, List.lookup, hne] at ih ⊢
      exact ih

theorem Obj.get_set_other (o : Obj) (k k' : String) (v : Json) (hk : k' ≠ k) :
    Obj.get (Obj.set o k v) k' = Obj.get o k' := by
  induction o with
  | nil =>
    have hne : (k' == k) = false := by simpa using hk
    simp [Obj.set, Obj.get, List.lookup, hne]
  | cons kv rest ih =>
    obtain ⟨k0, v0⟩ := kv
    by_cases h : k0 = k
    · subst h
      have hne : (k' == k0) = false := by simpa using hk
      simp [Obj.set, Obj.get, List.lookup, hne]
    · simp only [Obj.set, h, if_false]
      by_cases h0 : k' = k0
      · subst h0
        simp [Obj.get, List.lookup]
      · have hne : (k' == k0) = false := by simpa using h0
        simp only [Obj.get, List.lookup, hne] at ih ⊢
        exact ih

theorem Obj.keys_set_of_present (o : Obj) (k : String) (v : Json)
    (hk : Obj.get o k ≠ .undefined) :
    (Obj.set o k v).map Prod.fst = o.map Prod.fst := by
  induction o with
  | nil => simp [Obj.get, List.lookup] at hk
  | cons kv rest ih =>
    obtain ⟨k0, v0⟩ := kv
    by_cases h : k0 = k
    · simp [Obj.set, h]
    · have hne : (k == k0) = false := by simpa using fun e => h e.symm
      simp only [Obj.set, h, if_false, List.map_cons, List.cons.injEq, true_and]
      apply ih
      simpa [Obj.get, List.lookup, hne] using hk

theorem dotted_ne_empty (a b : String) : a ++ "." ++ b ≠ "" := by
  intro h
  have hlen := congrArg String.length h
  simp at hlen
  exact absurd hlen.1.2 (by decide)

theorem Jwt.compact_ne_empty (lib : JwsLib) (t : Jwt) : t.compact lib ≠ "" := by
  unfold Jwt.compact
  exact dotted_ne_empty _ _

/-! ## Facts about token issuance -/

theorem ms_one_hour : ms "1h" = some 3600000 := by decide

theorem timespan_one_hour (iat : Int) : timespan "1h" iat = some (iat + 3600) := by
  simp [timespan, ms_one_hour]

/-- With a non-empty secret `genToken` returns, for a record, the token whose payload
is the JSON form of `subject`, `username`, `iat` and `exp`. -/
theorem genToken_record (env : Env) (record : Obj) (hsecret : env.jwtSecret ≠ "") :
    genToken env (.json (.obj record)) = .ok
      { header := .obj [("alg", .str "HS256"), ("typ", .str "JWT")],
        payload := .obj (jsonify
          [("subject", .json (.str "user")), ("username", Obj.get record "username"),
           ("iat", .json (.num (env.now / 1000 : Nat))),
           ("exp", .json (.num ((env.now / 1000 : Nat) + 3600)))]),
        signature := env.jws.hmacSha256 env.jwtSecret
          (signingInput env.jws (.obj [("alg", .str "HS256"), ("typ", .str "JWT")])
            (.obj (jsonify
              [("subject", .json (.str "user")), ("username", Obj.get record "username"),
               ("iat", .json (.num (env.now / 1000 : Nat))),
               ("exp", .json (.num ((env.now / 1000 : Nat) + 3600)))]))) } := by
  simp [genToken, getProp, genTokenPayload, genTokenOptions, jwtSign, hsecret, claimIsNumber,
    Lit.get, Lit.set, List.lookup, timespan_one_hour, typeOf, bind, Except.bind, pure, Except.pure]

/-! ## POST /login -/

/-- C1. Logging in with a registered pair. When the lookup by the request's
username resolves with a record whose stored digest the request's password checks
against, the login handler sends exactly one response: status 200, with the welcome
message and a `token` field holding a non-empty string. The signing secret is taken
to be non-empty. -/
theorem login_registered_pair (env : Env) (body record : Obj) (u p digest : String)
    (hsecret : env.jwtSecret ≠ "")
    (hu : Obj.get body "username" = .json (.str u))
    (hp : Obj.get body "password" = .json (.str p))
    (hfind : env.Users.findByFirst [("username", .json (.str u))] = .ok (.json (.obj record)))
    (hdigest : Obj.get record "password" = .json (.str digest))
    (hcheck : env.bcrypt.check p digest = .ok true) :
    ∃ token : String, token ≠ "" ∧
      (login env body).sent =
        [{ status := 200,
           body := .json (.obj
             [("message", .str ("Welcome " ++ (Obj.get record "username").toStr ++ "!")),
              ("token", .str token)]) }] ∧
      (login env body).thrown = none := by
  obtain ⟨jwt, htok⟩ : ∃ jwt, genToken env (.json (.obj record)) = .ok jwt :=
    ⟨_, genToken_record env record hsecret⟩
  refine ⟨jwt.compact env.jws, Jwt.compact_ne_empty env.jws jwt, ?_, ?_⟩
  · simp [login, hu, hp, hfind, loginThen, truthy, getProp, hdigest, compareSync, hcheck, htok,
      bind, Except.bind, pure, Except.pure]
  · simp [login, hu, hp, hfind, loginThen, truthy, getProp, hdigest, compareSync, hcheck, htok,
      bind, Except.bind, pure, Except.pure]

theorem login_registered_pair_witness :
    ∃ token : String, token ≠ "" ∧
      (login demoEnv [("username", .str "alice"), ("password", .str "secret")]).sent =
        [{ status := 200,
           body := .json (.obj
             [("message", .str ("Welcome " ++ (Obj.get aliceRecord "username").toStr ++ "!")),
              ("token", .str token)]) }] ∧
      (login demoEnv [("username", .str "alice"), ("password", .str "secret")]).thrown = none :=
  login_registered_pair demoEnv [("username", .str "alice"), ("password", .str "secret")]
    aliceRecord "alice" "secret" "salt$secret" (by decide) rfl rfl rfl rfl rfl

/-- The mismatch path of the login handler. When the lookup by the request's
username resolves with a record and `compareSync` returns `false` on the request's
password and the stored digest, the login handler sends exactly one response,
status 401 with body `{message: "Invalid Credentials"}`; no token is generated:
nothing is logged and the body has no `token` field. `compareSync` returns only on
two strings, so a password that is absent or not a string is outside this path. -/
theorem login_digest_mismatch (env : Env) (body record : Obj)
    (hfind : env.Users.findByFirst [("username", Obj.get body "username")]
      = .ok (.json (.obj record)))
    (hmismatch : compareSync env.bcrypt (Obj.get body "password") (Obj.get record "password")
      = .ok false) :
    login env body =
      { added := [], logged := [],
        sent := [{ status := 401,
                   body := .json (.obj [("message", .str "Invalid Credentials")]) }],
        thrown := none } ∧
    ∀ response ∈ (login env body).sent, getProp response.body "token" = .ok .undefined := by
  have hrun : login env body =
      { added := [], logged := [],
        sent := [{ status := 401,
                   body := .json (.obj [("message", .str "Invalid Credentials")]) }],
        thrown := none } := by
    simp [login, hfind, loginThen, truthy, getProp, hmismatch, invalidCredentials,
      bind, Except.bind, pure, Except.pure]
  refine ⟨hrun, ?_⟩
  intro response hmem
  rw [hrun] at hmem
  simp at hmem
  subst hmem
  simp [getProp, Obj.get, List.lookup]

theorem login_digest_mismatch_at_guess :
    login demoEnv [("username", .str "alice"), ("password", .str "guess")] =
      { added := [], logged := [],
        sent := [{ status := 401,
                   body := .json (.obj [("message", .str "Invalid Credentials")]) }],
        thrown := none } :=
  (login_digest_mismatch demoEnv [("username", .str "alice"), ("password", .str "guess")]
    aliceRecord rfl rfl).1

/-- C2. A login for the stored user `alice`, registered with the password
`"secret"`, whose body carries the number `123` as password, a value other than the
registered one: the lookup resolves with the record, `compareSync` throws on the
number inside the then-callback, the exception lands in the `.catch` of the lookup,
and the only response sent has status 500, not 401. -/
theorem login_number_password_answers_500 :
    demoEnv.Users.findByFirst
        [("username", Obj.get [("username", .str "alice"), ("password", .num 123)] "username")]
      = .ok (.json (.obj aliceRecord)) ∧
    compareSync demoEnv.bcrypt (.json (.str "secret")) (Obj.get aliceRecord "password")
      = .ok true ∧
    login demoEnv [("username", .str "alice"), ("password", .num 123)] =
      { added := [], logged := [],
        sent := [{ status := 500, body := .error "Illegal arguments: number, string" }],
        thrown := none } :=
  ⟨rfl, rfl, rfl⟩

/-- The unknown-user path of the login handler. When the lookup by the request's
username resolves with no record, the login handler sends exactly one response,
status 401 with body `{message: "Invalid Credentials"}`, whatever password the body
carries; and every login whose lookup finds a record and on which `compareSync`
returns `false` sends the very same responses. A login for a stored user on which
`compareSync` throws is outside the second part. -/
theorem login_unknown_user (env : Env) (body : Obj)
    (habsent : env.Users.findByFirst [("username", Obj.get body "username")] = .ok .undefined) :
    (login env body).sent =
      [{ status := 401, body := .json (.obj [("message", .str "Invalid Credentials")]) }] ∧
    (login env body).logged = [] ∧
    ∀ (env2 : Env) (body2 record : Obj),
      env2.Users.findByFirst [("username", Obj.get body2 "username")]
        = .ok (.json (.obj record)) →
      compareSync env2.bcrypt (Obj.get body2 "password") (Obj.get record "password")
        = .ok false →
      (login env2 body2).sent = (login env body).sent := by
  have hrun : (login env body).sent =
      [{ status := 401, body := .json (.obj [("message", .str "Invalid Credentials")]) }] := by
    simp [login, habsent, loginThen, truthy, invalidCredentials, pure, Except.pure]
  refine ⟨hrun, ?_, ?_⟩
  · simp [login, habsent, loginThen, truthy, pure, Except.pure]
  · intro env2 body2 record hfind hmismatch
    rw [hrun]
    simp [login, hfind, loginThen, truthy, getProp, hmismatch, invalidCredentials,
      bind, Except.bind, pure, Except.pure]

theorem login_unknown_user_at_bob :
    (login demoEnv [("username", .str "bob"), ("password", .str "secret")]).sent =
      [{ status := 401, body := .json (.obj [("message", .str "Invalid Credentials")]) }] ∧
    (login demoEnv [("username", .str "alice"), ("password", .str "guess")]).sent =
      (login demoEnv [("username", .str "bob"), ("password", .str "secret")]).sent :=
  have h := login_unknown_user demoEnv [("username", .str "bob"), ("password", .str "secret")] rfl
  ⟨h.1, h.2.2 demoEnv [("username", .str "alice"), ("password", .str "guess")] aliceRecord
    rfl rfl⟩

/-- C3. Two logins carrying the same password, the number `123`: one for the
unknown username `bob`, one for the stored user `alice`. The lookup of `bob`
resolves with no record and the response is 401 with `Invalid Credentials`; the
lookup of `alice` resolves with her record, `compareSync` throws on the number, and
the response is 500 with the error. The two responses differ, so the caller can
tell an unknown username from a stored one. -/
theorem login_number_password_tells_users_apart :
    demoEnv.Users.findByFirst
        [("username", Obj.get [("username", .str "bob"), ("password", .num 123)] "username")]
      = .ok .undefined ∧
    (login demoEnv [("username", .str "bob"), ("password", .num 123)]).sent =
      [{ status := 401, body := .json (.obj [("message", .str "Invalid Credentials")]) }] ∧
    demoEnv.Users.findByFirst
        [("username", Obj.get [("username", .str "alice"), ("password", .num 123)] "username")]
      = .ok (.json (.obj aliceRecord)) ∧
    (login demoEnv [("username", .str "alice"), ("password", .num 123)]).sent =
      [{ status := 500, body := .error "Illegal arguments: number, string" }] ∧
    (login demoEnv [("username", .str "alice"), ("password", .num 123)]).sent ≠
      (login demoEnv [("username", .str "bob"), ("password", .num 123)]).sent := by
  have hbob : (login demoEnv [("username", .str "bob"), ("password", .num 123)]).sent =
      [{ status := 401, body := .json (.obj [("message", .str "Invalid Credentials")]) }] := rfl
  have halice : (login demoEnv [("username", .str "alice"), ("password", .num 123)]).sent =
      [{ status := 500, body := .error "Illegal arguments: number, string" }] := rfl
  refine ⟨rfl, hbob, rfl, halice, ?_⟩
  rw [hbob, halice]
  simp

/-- C8. A failing lookup. When the lookup by the request's username rejects with
`e`, the login handler sends exactly one response, status 500 with body `e`; no
response of status 200 or 401 is sent. -/
theorem login_lookup_failure (env : Env) (body : Obj) (e : JVal)
    (hfail : env.Users.findByFirst [("username", Obj.get body "username")] = .error e) :
    login env body =
      { added := [], logged := [], sent := [{ status := 500, body := e }], thrown := none } ∧
    ∀ response ∈ (login env body).sent, response.status ≠ 200 ∧ response.status ≠ 401 := by
  have hrun : login env body =
      { added := [], logged := [], sent := [{ status := 500, body := e }], thrown := none } := by
    simp [login, hfail]
  refine ⟨hrun, ?_⟩
  intro response hmem
  rw [hrun] at hmem
  simp at hmem
  subst hmem
  simp

theorem login_lookup_failure_witness :
    login demoEnv [("username", .str "down"), ("password", .str "secret")] =
      { added := [], logged := [],
        sent := [{ status := 500, body := .error "SQLITE_CANTOPEN" }], thrown := none } :=
  (login_lookup_failure demoEnv [("username", .str "down"), ("password", .str "secret")]
    (.error "SQLITE_CANTOPEN") rfl).1

/-- C9. A login body with no password field, for a username whose lookup succeeds
with a stored record: the digest comparison throws on the `undefined` guess, the
exception lands in the `.catch` of the lookup, and the only response sent has
status 500 although the lookup did not fail. -/
theorem login_missing_password_answers_500 :
    demoEnv.Users.findByFirst [("username", Obj.get [("username", .str "alice")] "username")]
      = .ok (.json (.obj aliceRecord)) ∧
    login demoEnv [("username", .str "alice")] =
      { added := [], logged := [],
        sent := [{ status := 500, body := .error "Illegal arguments: undefined, string" }],
        thrown := none } := by
  constructor
  · rfl
  · rfl

/-! ## POST /register -/

/-- The record handed to storage, when the handler gets that far, is the body with
its password set to the digest `hashSync` returned. -/
theorem register_added_cases (env : Env) (body : Obj) :
    (∃ thrown, hashSync env.bcrypt (Obj.get body "password") 10 = .error thrown ∧
      register env body = { added := [], logged := [], sent := [], thrown := some thrown }) ∨
    (∃ digest, hashSync env.bcrypt (Obj.get body "password") 10 = .ok digest ∧
      (register env body).added = [.obj (Obj.set body "password" (.str digest))] ∧
      (register env body).thrown = none ∧
      (∀ saved, env.Users.add (.obj (Obj.set body "password" (.str digest))) = .ok saved →
        (register env body).sent = [{ status := 201, body := saved }]) ∧
      (∀ error, env.Users.add (.obj (Obj.set body "password" (.str digest))) = .error error →
        (register env body).sent = [{ status := 500, body := error }])) := by
  cases hh : hashSync env.bcrypt (Obj.get body "password") 10 with
  | error thrown =>
    left
    exact ⟨thrown, rfl, by simp [register, hh]⟩
  | ok digest =>
    right
    refine ⟨digest, rfl, ?_, ?_, ?_, ?_⟩
    · cases hadd : env.Users.add (.obj (Obj.set body "password" (.str digest))) <;>
        simp [register, hh, hadd]
    · cases hadd : env.Users.add (.obj (Obj.set body "password" (.str digest))) <;>
        simp [register, hh, hadd]
    · intro saved hadd
      simp [register, hh, hadd]
    · intro error hadd
      simp [register, hh, hadd]

/-- C4, as amended. The record handed to storage. For a registration body whose password
field holds the string `p`, the register handler hands storage exactly one record: the body
with its password field set to the salted hash of `p` for the salt drawn at cost
factor 10. That record has the same keys in the same order as the body, and every
field other than the password reads as it does in the body. -/
theorem register_hands_hashed_record (env : Env) (body : Obj) (p : String)
    (hp : Obj.get body "password" = .json (.str p)) :
    (register env body).added =
      [.obj (Obj.set body "password" (.str (env.bcrypt.hash p (env.bcrypt.genSaltSync 10))))] ∧
    Obj.get (Obj.set body "password" (.str (env.bcrypt.hash p (env.bcrypt.genSaltSync 10))))
      "password" = .json (.str (env.bcrypt.hash p (env.bcrypt.genSaltSync 10))) ∧
    (Obj.set body "password" (.str (env.bcrypt.hash p (env.bcrypt.genSaltSync 10)))).map Prod.fst
      = body.map Prod.fst ∧
    ∀ k : String, k ≠ "password" →
      Obj.get (Obj.set body "password" (.str (env.bcrypt.hash p (env.bcrypt.genSaltSync 10)))) k
        = Obj.get body k := by
  have hh : hashSync env.bcrypt (Obj.get body "password") 10
      = .ok (env.bcrypt.hash p (env.bcrypt.genSaltSync 10)) := by
    simp [hashSync, hp]
  refine ⟨?_, Obj.get_set_same _ _ _, ?_, ?_⟩
  · cases hadd : env.Users.add
        (.obj (Obj.set body "password" (.str (env.bcrypt.hash p (env.bcrypt.genSaltSync 10))))) <;>
      simp [register, hh, hadd]
  · apply Obj.keys_set_of_present
    rw [hp]
    simp
  · intro k hk
    exact Obj.get_set_other _ _ _ _ hk

theorem register_hands_hashed_record_witness :
    (register demoEnv
      [("username", .str "carol"), ("password", .str "hunter2"), ("department", .str "ops")]).added
      = [.obj [("username", .str "carol"), ("password", .str "salt$hunter2"),
               ("department", .str "ops")]] :=
  (register_hands_hashed_record demoEnv
    [("username", .str "carol"), ("password", .str "hunter2"), ("department", .str "ops")]
    "hunter2" rfl).1

/-- C4, the claim as worded fails. The body `{username: "carol", password: 12345}` contains a
password field, yet `hashSync` throws on the number before `Users.add` is reached:
no record is handed to storage, no response is sent by the handler, and the
exception leaves it. -/
theorem register_number_password_not_stored :
    Obj.get [("username", .str "carol"), ("password", .num 12345)] "password"
      = .json (.num 12345) ∧
    register demoEnv [("username", .str "carol"), ("password", .num 12345)] =
      { added := [], logged := [], sent := [],
        thrown := some (.error "Illegal arguments: number, string") } ∧
    ¬ ∃ digest : String,
      (register demoEnv [("username", .str "carol"), ("password", .num 12345)]).added =
        [.obj (Obj.set [("username", .str "carol"), ("password", .num 12345)] "password"
          (.str digest))] := by
  have hrun : register demoEnv [("username", .str "carol"), ("password", .num 12345)] =
      { added := [], logged := [], sent := [],
        thrown := some (.error "Illegal arguments: number, string") } := rfl
  refine ⟨rfl, hrun, ?_⟩
  rintro ⟨digest, hadded⟩
  rw [hrun] at hadded
  simp at hadded

/-- C5. Successful registration. When a record was handed to storage and `add`
resolved with `r`, the register handler sends exactly one response: status 201
with body `r` itself, as storage returned it. -/
theorem register_success (env : Env) (body : Obj) (record : Json) (r : JVal)
    (hadded : record ∈ (register env body).added)
    (hadd : env.Users.add record = .ok r) :
    (register env body).sent = [{ status := 201, body := r }] ∧
    (register env body).thrown = none := by
  rcases register_added_cases env body with ⟨thrown, -, hrun⟩ | ⟨digest, -, hlist, hthrown, hok, -⟩
  · rw [hrun] at hadded
    simp at hadded
  · rw [hlist] at hadded
    simp at hadded
    subst hadded
    exact ⟨hok r hadd, hthrown⟩

theorem register_success_witness :
    (register demoEnv [("username", .str "carol"), ("password", .str "hunter2")]).sent =
      [{ status := 201,
         body := .json (.obj [("username", .str "carol"), ("password", .str "salt$hunter2")]) }] :=
  (register_success demoEnv [("username", .str "carol"), ("password", .str "hunter2")]
    (.obj [("username", .str "carol"), ("password", .str "salt$hunter2")])
    (.json (.obj [("username", .str "carol"), ("password", .str "salt$hunter2")]))
    (by simp [register, hashSync, demoEnv, demoBcrypt, demoUsers, Obj.get, Obj.set, List.lookup])
    rfl).1

/-- C6. Failing registration. When a record was handed to storage and `add`
rejected with `e`, the register handler sends exactly one response, status 500 with
body `e`; no response with a status in the range 200 to 299 is sent. -/
theorem register_storage_failure (env : Env) (body : Obj) (record : Json) (e : JVal)
    (hadded : record ∈ (register env body).added)
    (hadd : env.Users.add record = .error e) :
    (register env body).sent = [{ status := 500, body := e }] ∧
    ∀ response ∈ (register env body).sent, ¬ (200 ≤ response.status ∧ response.status < 300) := by
  have hsent : (register env body).sent = [{ status := 500, body := e }] := by
    rcases register_added_cases env body with ⟨thrown, -, hrun⟩ | ⟨digest, -, hlist, -, -, herr⟩
    · rw [hrun] at hadded
      simp at hadded
    · rw [hlist] at hadded
      simp at hadded
      subst hadded
      exact herr e hadd
  refine ⟨hsent, ?_⟩
  intro response hmem
  rw [hsent] at hmem
  simp at hmem
  subst hmem
  simp

theorem register_storage_failure_witness :
    (register demoEnv [("username", .str "taken"), ("password", .str "hunter2")]).sent =
      [{ status := 500, body := .error "UNIQUE constraint failed: users.username" }] :=
  (register_storage_failure demoEnv [("username", .str "taken"), ("password", .str "hunter2")]
    (.obj [("username", .str "taken"), ("password", .str "salt$hunter2")])
    (.error "UNIQUE constraint failed: users.username")
    (by simp [register, hashSync, demoEnv, demoBcrypt, demoUsers, Obj.get, Obj.set, List.lookup])
    rfl).1

/-! ## genToken -/

/-- C7. The decoded token. With a non-empty signing secret, `genToken` returns a
token for every user record and every clock reading; with `T` the issuance time in
seconds (the clock reading in milliseconds divided by 1000, rounded down), the
decoded payload has `subject` equal to `"user"`, `username` equal to the record's
username, `iat` equal to `T` and `exp` equal to `T + 3600`. -/
theorem genToken_decoded_claims (env : Env) (record : Obj) (hsecret : env.jwtSecret ≠ "") :
    ∃ (jwt : Jwt) (claims : Obj),
      genToken env (.json (.obj record)) = .ok jwt ∧
      jwt.decode = .obj claims ∧
      Obj.get claims "subject" = .json (.str "user") ∧
      Obj.get claims "username" = Obj.get record "username" ∧
      Obj.get claims "iat" = .json (.num (env.now / 1000 : Nat)) ∧
      Obj.get claims "exp" = .json (.num ((env.now / 1000 : Nat) + 3600)) := by
  refine ⟨_, _, genToken_record env record hsecret, rfl, ?_, ?_, ?_, ?_⟩
  · simp [jsonify, jsonMember, Obj.get, List.lookup]
  · cases hname : List.lookup "username" record <;>
      simp [jsonify, jsonMember, Obj.get, List.lookup, hname]
  · cases hname : List.lookup "username" record <;>
      simp [jsonify, jsonMember, Obj.get, List.lookup, hname]
  · cases hname : List.lookup "username" record <;>
      simp [jsonify, jsonMember, Obj.get, List.lookup, hname]

theorem genToken_decoded_claims_witness :
    ∃ (jwt : Jwt) (claims : Obj),
      genToken demoEnv (.json (.obj aliceRecord)) = .ok jwt ∧
      jwt.decode = .obj claims ∧
      Obj.get claims "subject" = .json (.str "user") ∧
      Obj.get claims "username" = Obj.get aliceRecord "username" ∧
      Obj.get claims "iat" = .json (.num (demoEnv.now / 1000 : Nat)) ∧
      Obj.get claims "exp" = .json (.num ((demoEnv.now / 1000 : Nat) + 3600)) :=
  genToken_decoded_claims demoEnv aliceRecord (by decide)

/-- C10. The payload depends on the username only. Two user records with the same
username make `genToken` build the same payload, namely `subject: "user"` and that
username and nothing else, and hence return the same token, whatever their
password digests and other fields are. -/
theorem genToken_payload_username_only (env : Env) (record1 record2 : Obj)
    (hsame : Obj.get record1 "username" = Obj.get record2 "username") :
    genTokenPayload (.json (.obj record1)) = genTokenPayload (.json (.obj record2)) ∧
    genTokenPayload (.json (.obj record1))
      = .ok [("subject", .json (.str "user")), ("username", Obj.get record1 "username")] ∧
    genToken env (.json (.obj record1)) = genToken env (.json (.obj record2)) := by
  have hpayload : ∀ record : Obj, genTokenPayload (.json (.obj record))
      = .ok [("subject", .json (.str "user")), ("username", Obj.get record "username")] := by
    intro record
    simp [genTokenPayload, getProp, bind, Except.bind, pure, Except.pure]
  refine ⟨?_, hpayload record1, ?_⟩
  · rw [hpayload, hpayload, hsame]
  · simp only [genToken, hpayload, hsame]

theorem genToken_payload_username_only_witness :
    genTokenPayload (.json (.obj aliceRecord))
      = genTokenPayload (.json (.obj
          [("username", .str "alice"), ("password", .str "salt$other"), ("admin", .bool true)])) ∧
    genToken demoEnv (.json (.obj aliceRecord))
      = genToken demoEnv (.json (.obj
          [("username", .str "alice"), ("password", .str "salt$other"), ("admin", .bool true)])) :=
  have h := genToken_payload_username_only demoEnv aliceRecord
    [("username", .str "alice"), ("password", .str "salt$other"), ("admin", .bool true)] rfl
  ⟨h.1, h.2.2⟩

end AuthRouter
